import Mathlib

/-!
Verification of the meeting audio-intelligence pipeline of the
`funds-trackon` backend (`app/services/audio_processing_service.py`
together with the `Meeting` model of `app/models/meeting.py`).

The service methods are embedded shallowly: every external effect
(AI gateway calls, record-store saves, file writes) is made explicit.
Gateway outcomes are passed in as oracle parameters; every `save` call
and every gateway call is recorded in an explicit log so that the
theorems can speak about persisted state and about which calls were
issued.  Machine-level details that no claim depends on are noted in
comments where they are abstracted.
-/

/-! ## Python string helpers

`str.strip()` and the regex class `\s` both treat the ASCII whitespace
characters space, tab, newline, carriage return, vertical tab and form
feed as whitespace (they additionally treat some rare non-ASCII
Unicode spaces as whitespace; no input in any claim contains those). -/

def pyWs (c : Char) : Bool :=
  c = ' ' || c = '\t' || c = '\n' || c = '\r' || c = '\x0b' || c = '\x0c'

/-- Python `str.strip()` on the character list. -/
def pyStripList (l : List Char) : List Char :=
  ((l.dropWhile pyWs).reverse.dropWhile pyWs).reverse

/-- Python `str.strip()`. -/
def pyStrip (s : String) : String :=
  String.mk (pyStripList s.data)

/-- Python truthiness of an `Optional[str]` field: `None` and `""` are falsy. -/
def truthyStr : Option String → Bool
  | none => false
  | some s => !s.isEmpty

/-- Python truthiness of an `Optional[List[str]]` field: `None` and `[]` are falsy. -/
def truthyList : Option (List String) → Bool
  | none => false
  | some l => !l.isEmpty

/-! ## JSON values and the syntax accepted by `json.loads`

`Json` is the value shape produced by Python's `json.loads` with its
default settings.  Numbers are kept as their source lexeme (no claim
inspects a numeric value) and `NaN`/`Infinity`/`-Infinity`, which
Python accepts by default, are number lexemes as well.  `\uXXXX`
escapes decode to the scalar value when it is a valid `Char`; the
decoded identity of lone-surrogate escapes is irrelevant to every
claim (only syntactic validity matters there). -/

inductive Json where
  | null : Json
  | bool : Bool → Json
  | num : String → Json
  | str : String → Json
  | arr : List Json → Json
  | obj : List (String × Json) → Json
deriving Repr

/-- JSON whitespace (`json.decoder` skips exactly space, tab, newline, CR). -/
def jsonWs (c : Char) : Bool :=
  c = ' ' || c = '\t' || c = '\n' || c = '\r'

def skipWs (l : List Char) : List Char :=
  l.dropWhile jsonWs

def hexVal (c : Char) : Option Nat :=
  if '0' ≤ c ∧ c ≤ '9' then some (c.toNat - '0'.toNat)
  else if 'a' ≤ c ∧ c ≤ 'f' then some (c.toNat - 'a'.toNat + 10)
  else if 'A' ≤ c ∧ c ≤ 'F' then some (c.toNat - 'A'.toNat + 10)
  else none

def escChar (c : Char) : Option Char :=
  if c = '"' then some '"'
  else if c = '\\' then some '\\'
  else if c = '/' then some '/'
  else if c = 'b' then some '\x08'
  else if c = 'f' then some '\x0c'
  else if c = 'n' then some '\n'
  else if c = 'r' then some '\r'
  else if c = 't' then some '\t'
  else none

/-- Body of a JSON string literal, after the opening quote.  Returns the
decoded characters and the remainder after the closing quote.  Literal
control characters below `0x20` are rejected (Python `strict=True`). -/
def parseStringChars : List Char → Option (List Char × List Char)
  | [] => none
  | '"' :: r => some ([], r)
  | '\\' :: 'u' :: h1 :: h2 :: h3 :: h4 :: r =>
    match hexVal h1, hexVal h2, hexVal h3, hexVal h4 with
    | some v1, some v2, some v3, some v4 =>
      (parseStringChars r).map fun (s, rr) =>
        (Char.ofNat (((v1 * 16 + v2) * 16 + v3) * 16 + v4) :: s, rr)
    | _, _, _, _ => none
  | '\\' :: c :: r =>
    match escChar c with
    | some ch => (parseStringChars r).map fun (s, rr) => (ch :: s, rr)
    | none => none
  | c :: r =>
    if c.toNat < 0x20 then none
    else (parseStringChars r).map fun (s, rr) => (c :: s, rr)

/-- Try to strip a literal prefix. -/
def dropLit : List Char → List Char → Option (List Char)
  | [], l => some l
  | p :: ps, c :: cs => if c = p then dropLit ps cs else none
  | _ :: _, [] => none

/-- A JSON number lexeme: `-? (0 | [1-9][0-9]*) (. [0-9]+)? ([eE][+-]?[0-9]+)?`
(Python's `NUMBER_RE`).  Returns the lexeme and the remainder. -/
def parseNumber (l : List Char) : Option (List Char × List Char) :=
  let (sign, l1) : List Char × List Char :=
    match l with
    | '-' :: r => (['-'], r)
    | _ => ([], l)
  match l1 with
  | [] => none
  | c :: r =>
    if c = '0' ∨ ¬ c.isDigit then
      if c = '0' then
        let (frac, l2) := parseFrac r
        let (ex, l3) := parseExp l2
        some (sign ++ ['0'] ++ frac ++ ex, l3)
      else none
    else
      let ds := r.takeWhile Char.isDigit
      let r1 := r.dropWhile Char.isDigit
      let (frac, l2) := parseFrac r1
      let (ex, l3) := parseExp l2
      some (sign ++ (c :: ds) ++ frac ++ ex, l3)
where
  parseFrac (l : List Char) : List Char × List Char :=
    match l with
    | '.' :: r =>
      let ds := r.takeWhile Char.isDigit
      if ds.isEmpty then ([], l)
      else ('.' :: ds, r.dropWhile Char.isDigit)
    | _ => ([], l)
  parseExp (l : List Char) : List Char × List Char :=
    match l with
    | e :: r =>
      if e = 'e' ∨ e = 'E' then
        let (sgn, r1) : List Char × List Char :=
          match r with
          | '+' :: rr => (['+'], rr)
          | '-' :: rr => (['-'], rr)
          | _ => ([], r)
        let ds := r1.takeWhile Char.isDigit
        if ds.isEmpty then ([], l)
        else (e :: sgn ++ ds, r1.dropWhile Char.isDigit)
      else ([], l)
    | [] => ([], l)

mutual

/-- One JSON value starting at the head of `l` (no leading whitespace),
as `json.decoder`'s `scan_once`; fuel bounds the recursion depth and is
always sufficient when it exceeds the input length. -/
def parseValue : Nat → List Char → Option (Json × List Char)
  | 0, _ => none
  | _ + 1, [] => none
  | f + 1, c :: rest =>
    if c = '\x7b' then
      match skipWs rest with
      | '\x7d' :: r => some (.obj [], r)
      | r => (parseMembers f r).map fun (ms, r') => (.obj ms, r')
    else if c = '[' then
      match skipWs rest with
      | ']' :: r => some (.arr [], r)
      | r => (parseElements f r).map fun (es, r') => (.arr es, r')
    else if c = '"' then
      (parseStringChars rest).map fun (s, r) => (.str (String.mk s), r)
    else if c = 'n' then
      (dropLit ['u', 'l', 'l'] rest).map fun r => (.null, r)
    else if c = 't' then
      (dropLit ['r', 'u', 'e'] rest).map fun r => (.bool true, r)
    else if c = 'f' then
      (dropLit ['a', 'l', 's', 'e'] rest).map fun r => (.bool false, r)
    else
      match parseNumber (c :: rest) with
      | some (lex, r) => some (.num (String.mk lex), r)
      | none =>
        match dropLit ['N', 'a', 'N'] (c :: rest) with
        | some r => some (.num "NaN", r)
        | none =>
          match dropLit ['I', 'n', 'f', 'i', 'n', 'i', 't', 'y'] (c :: rest) with
          | some r => some (.num "Infinity", r)
          | none =>
            match dropLit ['-', 'I', 'n', 'f', 'i', 'n', 'i', 't', 'y'] (c :: rest) with
            | some r => some (.num "-Infinity", r)
            | none => none

/-- Members of a JSON object, positioned at the first key's quote
(whitespace already skipped, object known non-empty). -/
def parseMembers : Nat → List Char → Option (List (String × Json) × List Char)
  | 0, _ => none
  | f + 1, l =>
    match l with
    | '"' :: r =>
      match parseStringChars r with
      | some (k, r1) =>
        match skipWs r1 with
        | ':' :: r2 =>
          match parseValue f (skipWs r2) with
          | some (v, r3) =>
            match skipWs r3 with
            | ',' :: r4 =>
              (parseMembers f (skipWs r4)).map fun (ms, r5) =>
                ((String.mk k, v) :: ms, r5)
            | '\x7d' :: r4 => some ([(String.mk k, v)], r4)
            | _ => none
          | none => none
        | _ => none
      | none => none
    | _ => none

/-- Elements of a JSON array, positioned at the first element
(whitespace already skipped, array known non-empty). -/
def parseElements : Nat → List Char → Option (List Json × List Char)
  | 0, _ => none
  | f + 1, l =>
    match parseValue f l with
    | some (v, r) =>
      match skipWs r with
      | ',' :: r1 =>
        (parseElements f (skipWs r1)).map fun (es, r2) => (v :: es, r2)
      | ']' :: r1 => some ([v], r1)
      | _ => none
    | none => none

end

/-- Python `json.loads`: skip surrounding whitespace, scan one value,
fail on trailing non-whitespace ("Extra data"). -/
def jsonParse (s : String) : Option Json :=
  match parseValue (s.length + 1) (skipWs s.data) with
  | some (v, rest) => if (skipWs rest).isEmpty then some v else none
  | none => none

/-- `dict.get(k)` on a parsed object: `json.loads` keeps the last of
duplicate keys, so the lookup takes the last matching pair.  Non-object
values have no keys. -/
def jsonGet (j : Json) (k : String) : Option Json :=
  match j with
  | .obj ms => ((ms.filter fun p => p.1 = k).getLast?).map Prod.snd
  | _ => none

/-- Read a JSON value at the declared pydantic type `Optional[str]`.
Values outside the declared type are modelled as absent (the analyses
every claim concerns are well-typed). -/
def Json.asStr : Json → Option String
  | .str s => some s
  | _ => none

/-- Read a JSON value at the declared pydantic type `List[str]`. -/
def Json.asStrList : Json → Option (List String)
  | .arr es => es.mapM Json.asStr
  | _ => none

/-! ## Markdown fence stripping

`_analyze_transcript` runs `re.sub(r'```json\s*|\s*```', '', text)`
before `json.loads`.  The scanner below reproduces that substitution:
at each position the first alternative (literal "```json" followed by
a greedy whitespace run) is tried, then the second (a whitespace run
followed by "```"); the second alternative matches exactly when the
maximal whitespace run starting here is followed by "```", because
backtracking into the run would require a backtick where a whitespace
character stands.  On a match the scan resumes after the match,
otherwise the character is kept and the scan advances by one. -/

def fenceJsonAt (l : List Char) : Option (List Char) :=
  if l.take 7 = ['`', '`', '`', 'j', 's', 'o', 'n'] then
    some ((l.drop 7).dropWhile pyWs)
  else none

def wsFenceAt (l : List Char) : Option (List Char) :=
  let w := l.dropWhile pyWs
  if w.take 3 = ['`', '`', '`'] then some (w.drop 3) else none

def subFencesF : Nat → List Char → List Char
  | 0, l => l
  | _ + 1, [] => []
  | f + 1, c :: r =>
    match fenceJsonAt (c :: r) with
    | some r' => subFencesF f r'
    | none =>
      match wsFenceAt (c :: r) with
      | some r' => subFencesF f r'
      | none => c :: subFencesF f r

/-- `re.sub(r'```json\s*|\s*```', '', s)`.  Every scan step consumes at
least one character, so `length + 1` fuel always suffices. -/
def stripFences (s : String) : String :=
  String.mk (subFencesF (s.length + 1) s.data)

/-! ## Data model (`app/models/meeting.py`)

Fields the pipeline neither reads nor writes (attendees, agenda,
location, infographic metadata, ...) are omitted.  `datetime` values
are modelled as abstract instants (`Nat`); `strftime` rendering is
modelled as decimal rendering of the instant, since no claim depends
on the calendar text.  `duration_seconds` (a float) is omitted. -/

inductive AudioProcessingStatus where
  | notStarted
  | processing
  | completed
  | failed
deriving Repr, DecidableEq

structure AudioRecording where
  filename : String
  original_filename : String
  file_size : Nat
  upload_timestamp : Nat
  processing_status : AudioProcessingStatus
  transcript : Option String
  transcript_summary : Option String
  ai_insights : Option Json
deriving Repr

structure Meeting where
  id : String
  title : String
  meeting_type : String
  status : String
  fundraising_id : String
  contact_id : Option String
  scheduled_date : Nat
  notes : Option String
  audio_recording : Option AudioRecording
  ai_summary : Option String
  ai_key_points : Option (List String)
  ai_action_items : Option (List String)
  ai_sentiment : Option String
  dub_filename : Option String
  dub_text : Option String
  dub_voice : Option String
  dub_format : Option String
  dub_generated_at : Option Nat
  created_by : String
  updated_at : Nat
deriving Repr

/-! ## Errors and gateway requests

Python exception values are modelled by their class and message;
`str(e)` of a single-argument exception is its message. -/

inductive AppError where
  | valueError (msg : String)
  | fileNotFoundError (msg : String)
  | runtimeError (msg : String)
  | apiError (msg : String)
  | exception (msg : String)
deriving Repr, DecidableEq

/-- `str(e)`. -/
def errStr : AppError → String
  | .valueError m => m
  | .fileNotFoundError m => m
  | .runtimeError m => m
  | .apiError m => m
  | .exception m => m

/-- One chat-completion request as the service builds it (model name,
system message, user message, temperature ×10, max_tokens).  The
completion outcome is supplied by an oracle `CompletionRequest →
Except AppError String` standing for the provider; a missing API key
surfaces as a `runtimeError` outcome of the corresponding step. -/
structure CompletionRequest where
  model : String
  system : String
  user : String
  temperatureTenths : Nat
  maxTokens : Nat
deriving Repr, DecidableEq

def audioPath (filename : String) : String := "uploads/audio/" ++ filename

/-! ## Structured Analysis Stage (`_analyze_transcript`, `process_audio_recording`) -/

def analysisSystem : String :=
  "You are an expert business analyst specializing in investment meetings. Provide structured, actionable insights from meeting transcripts."

def analysisPrompt (transcript : String) : String :=
  "\n        Analyze the following meeting transcript and provide a structured analysis:\n\n        TRANSCRIPT:\n        "
  ++ transcript ++
  "\n\n        Please provide a JSON response with the following structure:\n        \x7b\n            \"summary\": \"Brief 2-3 sentence summary of the meeting\",\n            \"key_points\": [\"List of 3-5 key discussion points\"],\n            \"action_items\": [\"List of specific action items mentioned or implied\"],\n            \"sentiment\": \"Overall sentiment (positive/negative/neutral)\",\n            \"topics_discussed\": [\"Main topics covered\"],\n            \"participants_mood\": \"Assessment of participants\x27 engagement and mood\",\n            \"follow_up_needed\": \"What follow-up actions are needed\",\n            \"risks_concerns\": [\"Any risks or concerns mentioned\"],\n            \"opportunities\": [\"Investment or business opportunities identified\"]\n        \x7d\n\n        Focus on investment/fundraising context. Be specific and actionable.\n        "

def analysisRequest (transcript : String) : CompletionRequest :=
  { model := "gpt-4", system := analysisSystem, user := analysisPrompt transcript,
    temperatureTenths := 3, maxTokens := 1000 }

/-- The fixed fallback analysis substituted on `json.JSONDecodeError`. -/
def fallbackAnalysis : Json :=
  .obj
    [ ("summary", .str "Meeting transcript analysis completed."),
      ("key_points", .arr [.str "Transcript processed successfully"]),
      ("action_items", .arr [.str "Review AI analysis for detailed insights"]),
      ("sentiment", .str "neutral"),
      ("topics_discussed", .arr [.str "Meeting content analyzed"]),
      ("participants_mood", .str "Professional"),
      ("follow_up_needed", .str "Review detailed analysis"),
      ("risks_concerns", .arr []),
      ("opportunities", .arr [.str "AI-powered insights generated"]) ]

/-- The parse step of `_analyze_transcript`: `content.strip()`, strip
markdown fences, `json.loads`; on a decode error return the fallback. -/
def parseAnalysisText (content : String) : Json :=
  match jsonParse (stripFences (pyStrip content)) with
  | some a => a
  | none => fallbackAnalysis

/-- `_analyze_transcript` (leading underscore dropped for Lean): one
completion call, then the parse-or-fallback step. -/
def analyze_transcript (completeFn : CompletionRequest → Except AppError String)
    (transcript : String) : Except AppError Json :=
  match completeFn (analysisRequest transcript) with
  | .error e => .error e
  | .ok content => .ok (parseAnalysisText content)

/-- Outcome of `process_audio_recording`: the value returned or error
raised, plus every `meeting.save()` in call order (the model assumes
the saves themselves succeed, as the claims do).  The success payload
is the `(transcript, analysis)` pair of the returned dict. -/
structure ProcessOutcome where
  result : Except AppError (String × Json)
  saves : List Meeting
deriving Repr

def process_audio_recording (meeting? : Option Meeting)
    (transcribeFn : String → Except AppError String)
    (completeFn : CompletionRequest → Except AppError String)
    (now : Nat) : ProcessOutcome :=
  match meeting? with
  | none => { result := .error (.valueError "Meeting or audio recording not found"), saves := [] }
  | some m =>
    match m.audio_recording with
    | none => { result := .error (.valueError "Meeting or audio recording not found"), saves := [] }
    | some ar =>
      let m1 := { m with audio_recording := some { ar with processing_status := .processing } }
      match transcribeFn (audioPath ar.filename) with
      | .error e =>
        let mf := { m1 with audio_recording := some { ar with processing_status := .failed } }
        { result := .error (.exception ("Audio processing failed: " ++ errStr e)),
          saves := [m1, mf] }
      | .ok transcript =>
        match analyze_transcript completeFn transcript with
        | .error e =>
          let mf := { m1 with audio_recording := some { ar with processing_status := .failed } }
          { result := .error (.exception ("Audio processing failed: " ++ errStr e)),
            saves := [m1, mf] }
        | .ok analysis =>
          let m2 := { m1 with
            audio_recording := some { ar with
              processing_status := .completed,
              transcript := some transcript,
              transcript_summary := (jsonGet analysis "summary").bind Json.asStr,
              ai_insights := some analysis },
            ai_summary := (jsonGet analysis "summary").bind Json.asStr,
            ai_key_points := ((jsonGet analysis "key_points").getD (.arr [])).asStrList,
            ai_action_items := ((jsonGet analysis "action_items").getD (.arr [])).asStrList,
            ai_sentiment := (jsonGet analysis "sentiment").bind Json.asStr,
            updated_at := now }
          { result := .ok (transcript, analysis), saves := [m1, m2] }

/-! ## Campaign Synthesis Stage (`generate_campaign_insights`) -/

/-- The inner `truncate` helper (`max_chars` defaults to 2000):
falsy input gives `""`; otherwise the text is cut at `max_chars`
characters with an explicit `"..."` marker. -/
def truncate (text : Option String) (max_chars : Nat := 2000) : String :=
  if !truthyStr text then ""
  else
    let t := text.getD ""
    if t.length ≤ max_chars then t else String.mk (t.data.take max_chars) ++ "..."

/-- Stand-in for `scheduled_date.strftime('%Y-%m-%d %H:%M')`; the field
is required, so the source's `'N/A'` branch is unreachable, and no
claim depends on the calendar text of the rendering. -/
def formatScheduled (d : Nat) : String := toString d

/-- `m.audio_recording and m.audio_recording.transcript` as a Bool. -/
def hasTranscriptB (m : Meeting) : Bool :=
  match m.audio_recording with
  | some ar => truthyStr ar.transcript
  | none => false

/-- The `parts` list built for one meeting inside
`generate_campaign_insights`: four header lines, then AI summary, AI
key points and notes whenever each is truthy, then the transcript
excerpt exactly when a transcript exists and neither `ai_summary` nor
`notes` is truthy. -/
def meetingContextParts (m : Meeting) : List String :=
  let date_str := formatScheduled m.scheduled_date
  let base := ["Title: " ++ m.title, "Date: " ++ date_str,
               "Type: " ++ m.meeting_type, "Status: " ++ m.status]
  let p1 := if truthyStr m.ai_summary then
      ["AI Summary: " ++ truncate m.ai_summary 800] else []
  let p2 := if truthyList m.ai_key_points then
      ["AI Key Points: " ++ truncate (some (String.intercalate "\n" (m.ai_key_points.getD []))) 800]
    else []
  let p3 := if truthyStr m.notes then ["Notes: " ++ truncate m.notes 800] else []
  let p4 := if hasTranscriptB m && !truthyStr m.ai_summary && !truthyStr m.notes then
      ["Transcript excerpt: " ++ truncate (m.audio_recording.bind AudioRecording.transcript) 1500]
    else []
  base ++ p1 ++ p2 ++ p3 ++ p4

def meetingContext (m : Meeting) : String :=
  String.intercalate "\n" (meetingContextParts m)

/-- The record-store query `{"fundraising_id": fid}` plus, when the
caller passes a truthy `meeting_ids` list, `{"_id": {"$in": ids}}`
(`if meeting_ids:` — an empty list adds no filter). -/
def queryMatch (fid : String) (meeting_ids : Option (List String)) (m : Meeting) : Bool :=
  m.fundraising_id == fid &&
    (match meeting_ids with
     | some ids => if !ids.isEmpty then ids.contains m.id else true
     | none => true)

def scheduledLe (a b : Meeting) : Prop := a.scheduled_date ≤ b.scheduled_date

instance : DecidableRel scheduledLe := fun a b => Nat.decLe a.scheduled_date b.scheduled_date

instance : IsTotal Meeting scheduledLe := ⟨fun a b => Nat.le_total a.scheduled_date b.scheduled_date⟩

instance : IsTrans Meeting scheduledLe := ⟨fun _ _ _ => Nat.le_trans⟩

/-- The meetings the stage works on: the store rows matching the query,
sorted ascending by `scheduled_date` (the `.sort([("scheduled_date",
1)])` clause of the query). -/
def campaignMeetings (store : List Meeting) (fid : String) (ids : Option (List String)) : List Meeting :=
  List.insertionSort scheduledLe (store.filter (queryMatch fid ids))

def campaignSystem : String :=
  "You synthesize insights across multiple related meetings for fundraising."

def campaignPrompt (context custom_prompt : String) : String :=
  "\n        You are an expert investment analyst. Based on the following set of meetings for a single fundraising campaign,\n        answer the user\x27s question. Use all relevant details across meetings. If there are inconsistencies, explain them.\n\n        MEETINGS CONTEXT (chronological):\n        "
  ++ context ++
  "\n\n        USER QUESTION:\n        "
  ++ custom_prompt ++
  "\n\n        Provide a clear, concise answer grounded only in the provided context. If information is missing, state what is missing.\n        "

def campaignRequest (context custom_prompt : String) : CompletionRequest :=
  { model := "gpt-4", system := campaignSystem, user := campaignPrompt context custom_prompt,
    temperatureTenths := 4, maxTokens := 1200 }

structure CampaignResult where
  custom_prompt : String
  response : String
  generated_at : Nat
  meetings_used : List String
deriving Repr, DecidableEq

/-- Outcome of `generate_campaign_insights`: result or raised error,
the completion calls issued, and the saves performed (the method never
calls `save`, recorded explicitly so the no-writes property is a
theorem about the definition). -/
structure CampaignOutcome where
  result : Except AppError CampaignResult
  calls : List CompletionRequest
  saves : List Meeting
deriving Repr

def generate_campaign_insights (store : List Meeting)
    (fundraising_id custom_prompt : String) (meeting_ids : Option (List String))
    (completeFn : CompletionRequest → Except AppError String) (now : Nat) : CampaignOutcome :=
  let meetings := campaignMeetings store fundraising_id meeting_ids
  if meetings.isEmpty then
    { result := .error (.valueError "No meetings found for this fundraising campaign"),
      calls := [], saves := [] }
  else
    let context := String.intercalate "\n\n---\n\n" (meetings.map meetingContext)
    let req := campaignRequest context custom_prompt
    match completeFn req with
    | .error e => { result := .error e, calls := [req], saves := [] }
    | .ok resp =>
      { result := .ok { custom_prompt := custom_prompt, response := pyStrip resp,
                        generated_at := now, meetings_used := meetings.map Meeting.id },
        calls := [req], saves := [] }

/-! ## Auto-Dub Stage (`auto_dub_meeting`) -/

def translateSystem : String := "You are a professional translator to English."

def translatePromptText (transcript : String) : String :=
  "Translate the following transcript into clear, fluent English. Preserve meaning and names.\n\n" ++ transcript

def translateRequest (transcript : String) : CompletionRequest :=
  { model := "gpt-4o-mini", system := translateSystem, user := translatePromptText transcript,
    temperatureTenths := 2, maxTokens := 6000 }

def cleanupSystem : String := "You are an editor preparing text for voiceover."

def cleanupPromptText (transcript : String) : String :=
  "Rewrite this transcript into concise, clear English suitable for voiceover, without changing factual content.\n\n" ++ transcript

def cleanupRequest (transcript : String) : CompletionRequest :=
  { model := "gpt-4o-mini", system := cleanupSystem, user := cleanupPromptText transcript,
    temperatureTenths := 3, maxTokens := 6000 }

/-- `needs_translation = any(ord(ch) > 127 for ch in transcript[:200])`. -/
def needsTranslation (transcript : String) : Bool :=
  (transcript.data.take 200).any fun ch => 127 < ch.toNat

structure DubResult where
  filename : String
  url : String
  text : String
deriving Repr, DecidableEq

/-- Outcome of `auto_dub_meeting`: result or raised error, saves in
call order, completion calls issued, the input text of each
speech-synthesis attempt, and file writes (path, bytes). -/
structure DubOutcome where
  result : Except AppError DubResult
  saves : List Meeting
  calls : List CompletionRequest
  ttsCalls : List String
  fileWrites : List (String × List Nat)
deriving Repr

def dubsPath (filename : String) : String := "uploads/dubs/" ++ filename

/-- `auto_dub_meeting` after the transcript has been ensured: the
translation heuristic, the API-key validation, one completion call,
then speech synthesis — the primary path (chat completion with audio
output) whose audio, when present, is used directly, else the
dedicated speech endpoint, whose failure raises
`RuntimeError("TTS generation failed: ...")`; only after the file
write are the dub fields saved.  `primaryTTS` returns `none` when the
primary path raises or carries no audio data (its error is swallowed
by the bare `except`). -/
def autoDubRest (m : Meeting) (transcript : String) (saves0 : List Meeting)
    (target_voice audio_format : String)
    (completeFn : CompletionRequest → Except AppError String)
    (configured : Bool)
    (primaryTTS : String → Option (List Nat))
    (fallbackTTS : String → Except AppError (List Nat))
    (now : Nat) : DubOutcome :=
  let needs_translation := needsTranslation transcript
  if !configured then
    { result := .error (.runtimeError "OpenAI API key not configured. Provide X-OpenAI-API-Key header or set OPENAI_API_KEY."),
      saves := saves0, calls := [], ttsCalls := [], fileWrites := [] }
  else
    let req := if needs_translation then translateRequest transcript else cleanupRequest transcript
    match completeFn req with
    | .error e =>
      { result := .error e, saves := saves0, calls := [req], ttsCalls := [], fileWrites := [] }
    | .ok content =>
      let english_text := pyStrip content
      let dub_filename := m.id ++ "_dub." ++ audio_format
      let dub_path := dubsPath dub_filename
      let finish := fun (audio_bytes : List Nat) (tts : List String) =>
        let m2 := { m with
          dub_filename := some dub_filename,
          dub_text := some english_text,
          dub_generated_at := some now,
          dub_voice := some target_voice,
          dub_format := some audio_format,
          updated_at := now }
        { result := .ok { filename := dub_filename,
                          url := "/api/meetings/" ++ m.id ++ "/autodub",
                          text := english_text },
          saves := saves0 ++ [m2], calls := [req], ttsCalls := tts,
          fileWrites := [(dub_path, audio_bytes)] : DubOutcome }
      match primaryTTS english_text with
      | some audio_bytes => finish audio_bytes [english_text]
      | none =>
        match fallbackTTS english_text with
        | .ok audio_bytes => finish audio_bytes [english_text, english_text]
        | .error e =>
          { result := .error (.runtimeError ("TTS generation failed: " ++ errStr e)),
            saves := saves0, calls := [req], ttsCalls := [english_text, english_text],
            fileWrites := [] }

def auto_dub_meeting (meeting? : Option Meeting) (target_voice audio_format : String)
    (transcribeFn : String → Except AppError String)
    (completeFn : CompletionRequest → Except AppError String)
    (configured : Bool)
    (primaryTTS : String → Option (List Nat))
    (fallbackTTS : String → Except AppError (List Nat))
    (now : Nat) : DubOutcome :=
  match meeting? with
  | none =>
    { result := .error (.valueError "Meeting or audio recording not found"),
      saves := [], calls := [], ttsCalls := [], fileWrites := [] }
  | some m =>
    match m.audio_recording with
    | none =>
      { result := .error (.valueError "Meeting or audio recording not found"),
        saves := [], calls := [], ttsCalls := [], fileWrites := [] }
    | some ar =>
      if !truthyStr ar.transcript then
        match transcribeFn (audioPath ar.filename) with
        | .error e =>
          { result := .error e, saves := [], calls := [], ttsCalls := [], fileWrites := [] }
        | .ok t =>
          let m1 := { m with audio_recording := some { ar with transcript := some t } }
          autoDubRest m1 t [m1] target_voice audio_format completeFn configured primaryTTS fallbackTTS now
      else
        autoDubRest m (ar.transcript.getD "") [] target_voice audio_format completeFn configured primaryTTS fallbackTTS now

/-! ## Concrete fixtures used by witnesses and counterexamples -/

def sampleRecording : AudioRecording :=
  { filename := "rec.wav", original_filename := "rec.wav", file_size := 4,
    upload_timestamp := 0, processing_status := .notStarted,
    transcript := none, transcript_summary := none, ai_insights := none }

def sampleMeeting : Meeting :=
  { id := "M1", title := "Kickoff", meeting_type := "Initial Meeting",
    status := "Scheduled", fundraising_id := "F1", contact_id := none,
    scheduled_date := 100, notes := none, audio_recording := some sampleRecording,
    ai_summary := none, ai_key_points := none, ai_action_items := none,
    ai_sentiment := none, dub_filename := none, dub_text := none,
    dub_voice := none, dub_format := none, dub_generated_at := none,
    created_by := "u1", updated_at := 0 }

def transcribeOkHello : String → Except AppError String := fun _ => .ok "Hello world."

def completeNotJson : CompletionRequest → Except AppError String :=
  fun _ => .ok "Sorry, I cannot produce JSON."

def transcribeFileMissing : String → Except AppError String :=
  fun p => .error (.fileNotFoundError ("Audio file not found: " ++ p))

/-! ## C2 — invalid JSON from the completion falls back, stage completes -/

/-- C2: in the Structured Analysis Stage, if the completion call returns
text that is not syntactically valid JSON (after fence stripping), the
stage does not fail: `ai_insights` of the final persisted state equals
the fixed fallback analysis, the promoted `ai_*` fields are populated
from that fallback, and `processing_status` ends `COMPLETED`. -/
theorem analysis_falls_back_on_invalid_json
    (m : Meeting) (ar : AudioRecording)
    (tf : String → Except AppError String)
    (cf : CompletionRequest → Except AppError String)
    (now : Nat) (t content : String)
    (har : m.audio_recording = some ar)
    (ht : tf (audioPath ar.filename) = .ok t)
    (hc : cf (analysisRequest t) = .ok content)
    (hbad : jsonParse (stripFences (pyStrip content)) = none) :
    ∃ mf,
      (process_audio_recording (some m) tf cf now).saves.getLast? = some mf ∧
      mf.audio_recording = some { ar with
        processing_status := .completed,
        transcript := some t,
        transcript_summary := some "Meeting transcript analysis completed.",
        ai_insights := some fallbackAnalysis } ∧
      mf.ai_summary = some "Meeting transcript analysis completed." ∧
      mf.ai_key_points = some ["Transcript processed successfully"] ∧
      mf.ai_action_items = some ["Review AI analysis for detailed insights"] ∧
      mf.ai_sentiment = some "neutral" ∧
      (process_audio_recording (some m) tf cf now).result = .ok (t, fallbackAnalysis) := by
  have hfb : parseAnalysisText content = fallbackAnalysis := by
    unfold parseAnalysisText
    rw [hbad]
  simp only [process_audio_recording, analyze_transcript, har, ht, hc, hfb]
  refine ⟨_, rfl, ?_, ?_, ?_, ?_, ?_, ?_⟩ <;> first | rfl | trivial

/-- Witness for C2 at a concrete run. -/
theorem analysis_falls_back_on_invalid_json_witness :
    ∃ mf,
      (process_audio_recording (some sampleMeeting) transcribeOkHello completeNotJson 7).saves.getLast? = some mf ∧
      mf.audio_recording = some { sampleRecording with
        processing_status := .completed,
        transcript := some "Hello world.",
        transcript_summary := some "Meeting transcript analysis completed.",
        ai_insights := some fallbackAnalysis } ∧
      mf.ai_summary = some "Meeting transcript analysis completed." ∧
      mf.ai_key_points = some ["Transcript processed successfully"] ∧
      mf.ai_action_items = some ["Review AI analysis for detailed insights"] ∧
      mf.ai_sentiment = some "neutral" ∧
      (process_audio_recording (some sampleMeeting) transcribeOkHello completeNotJson 7).result
        = .ok ("Hello world.", fallbackAnalysis) :=
  analysis_falls_back_on_invalid_json sampleMeeting sampleRecording
    transcribeOkHello completeNotJson 7 "Hello world." "Sorry, I cannot produce JSON."
    rfl rfl rfl (by rfl)

/-! ## C3 — the stage always ends `COMPLETED` or `FAILED` -/

/-- C3: for every invocation of `process_audio_recording` on a meeting
with an audio recording, the last persisted state has
`processing_status` `COMPLETED` (exactly when a value is returned) or
`FAILED` (with an error propagated); it is never left `PROCESSING`
(the model assumes the status writes succeed, as the claim does). -/
theorem process_terminates_completed_or_failed
    (m : Meeting) (ar : AudioRecording)
    (tf : String → Except AppError String)
    (cf : CompletionRequest → Except AppError String) (now : Nat)
    (har : m.audio_recording = some ar) :
    ∃ mf arf,
      (process_audio_recording (some m) tf cf now).saves.getLast? = some mf ∧
      mf.audio_recording = some arf ∧
      (arf.processing_status = .completed ∨ arf.processing_status = .failed) ∧
      (arf.processing_status = .completed →
        ∃ v, (process_audio_recording (some m) tf cf now).result = .ok v) ∧
      (arf.processing_status = .failed →
        ∃ e, (process_audio_recording (some m) tf cf now).result = .error e) := by
  cases htf : tf (audioPath ar.filename) with
  | error e =>
    simp only [process_audio_recording, har, htf]
    refine ⟨_, _, rfl, rfl, Or.inr rfl, ?_, ?_⟩
    · intro h; simp at h
    · intro _; exact ⟨_, rfl⟩
  | ok t =>
    cases hcf : cf (analysisRequest t) with
    | error e =>
      simp only [process_audio_recording, analyze_transcript, har, htf, hcf]
      refine ⟨_, _, rfl, rfl, Or.inr rfl, ?_, ?_⟩
      · intro h; simp at h
      · intro _; exact ⟨_, rfl⟩
    | ok content =>
      simp only [process_audio_recording, analyze_transcript, har, htf, hcf]
      refine ⟨_, _, rfl, rfl, Or.inl rfl, ?_, ?_⟩
      · intro _; exact ⟨_, rfl⟩
      · intro h; simp at h

/-- Witness for C3 at a concrete run (the success path). -/
theorem process_terminates_completed_or_failed_witness :
    ∃ mf arf,
      (process_audio_recording (some sampleMeeting) transcribeOkHello completeNotJson 7).saves.getLast? = some mf ∧
      mf.audio_recording = some arf ∧
      (arf.processing_status = .completed ∨ arf.processing_status = .failed) ∧
      (arf.processing_status = .completed →
        ∃ v, (process_audio_recording (some sampleMeeting) transcribeOkHello completeNotJson 7).result = .ok v) ∧
      (arf.processing_status = .failed →
        ∃ e, (process_audio_recording (some sampleMeeting) transcribeOkHello completeNotJson 7).result = .error e) :=
  process_terminates_completed_or_failed sampleMeeting sampleRecording
    transcribeOkHello completeNotJson 7 rfl

/-! ## C5 — what error actually reaches the caller -/

def completeUnused : CompletionRequest → Except AppError String :=
  fun _ => .error (.runtimeError "unused")

/-- C5 counterexample: when transcription raises
`FileNotFoundError("Audio file not found: uploads/audio/rec.wav")`, the
error reaching the caller of `process_audio_recording` is a new bare
`Exception("Audio processing failed: ...")`, not the original error, so
the original kind is not preserved. -/
theorem original_error_not_rethrown :
    transcribeFileMissing (audioPath sampleRecording.filename)
      = .error (.fileNotFoundError "Audio file not found: uploads/audio/rec.wav") ∧
    (process_audio_recording (some sampleMeeting) transcribeFileMissing completeUnused 0).result
      = .error (.exception "Audio processing failed: Audio file not found: uploads/audio/rec.wav") ∧
    AppError.exception "Audio processing failed: Audio file not found: uploads/audio/rec.wav"
      ≠ AppError.fileNotFoundError "Audio file not found: uploads/audio/rec.wav" :=
  ⟨rfl, rfl, by decide⟩

/-- C5 (amended): errors do surface to the caller after best-effort
bookkeeping, but not always untouched.  The Structured Analysis Stage
marks `FAILED` and raises a new generic `Exception` whose message is
`"Audio processing failed: " + str(original)`, and the Auto-Dub Stage
wraps a double speech-synthesis failure in a new
`RuntimeError("TTS generation failed: " + str(fallback error))` — both
destroy the original kind, keeping only its message.  All other paths
surface the original error untouched: Campaign Synthesis completion
errors, and the Auto-Dub Stage's completion and transcription
errors. -/
theorem errors_surface_after_bookkeeping :
    (∀ (m : Meeting) (ar : AudioRecording)
        (tf : String → Except AppError String)
        (cf : CompletionRequest → Except AppError String) (now : Nat) (e : AppError),
      m.audio_recording = some ar →
      tf (audioPath ar.filename) = .error e →
      (process_audio_recording (some m) tf cf now).result
        = .error (.exception ("Audio processing failed: " ++ errStr e)) ∧
      (process_audio_recording (some m) tf cf now).saves.getLast?.bind Meeting.audio_recording
        = some { ar with processing_status := .failed }) ∧
    (∀ (m : Meeting) (ar : AudioRecording)
        (tf : String → Except AppError String)
        (cf : CompletionRequest → Except AppError String) (now : Nat) (t : String) (e : AppError),
      m.audio_recording = some ar →
      tf (audioPath ar.filename) = .ok t →
      cf (analysisRequest t) = .error e →
      (process_audio_recording (some m) tf cf now).result
        = .error (.exception ("Audio processing failed: " ++ errStr e)) ∧
      (process_audio_recording (some m) tf cf now).saves.getLast?.bind Meeting.audio_recording
        = some { ar with processing_status := .failed }) ∧
    (∀ (store : List Meeting) (fid cp : String) (ids : Option (List String)) (now : Nat) (e : AppError),
      campaignMeetings store fid ids ≠ [] →
      (generate_campaign_insights store fid cp ids (fun _ => .error e) now).result = .error e) ∧
    (∀ (m : Meeting) (ar : AudioRecording) (voice fmt : String)
        (tf : String → Except AppError String)
        (primaryTTS : String → Option (List Nat))
        (fallbackTTS : String → Except AppError (List Nat)) (now : Nat) (e : AppError),
      m.audio_recording = some ar →
      truthyStr ar.transcript = true →
      (auto_dub_meeting (some m) voice fmt tf (fun _ => .error e) true primaryTTS fallbackTTS now).result
        = .error e) ∧
    (∀ (m : Meeting) (ar : AudioRecording) (voice fmt : String)
        (tf : String → Except AppError String)
        (cf : CompletionRequest → Except AppError String) (configured : Bool)
        (primaryTTS : String → Option (List Nat))
        (fallbackTTS : String → Except AppError (List Nat)) (now : Nat) (e : AppError),
      m.audio_recording = some ar →
      truthyStr ar.transcript = false →
      tf (audioPath ar.filename) = .error e →
      (auto_dub_meeting (some m) voice fmt tf cf configured primaryTTS fallbackTTS now).result
        = .error e) ∧
    (∀ (m : Meeting) (ar : AudioRecording) (voice fmt : String)
        (tf : String → Except AppError String)
        (cf : CompletionRequest → Except AppError String)
        (primaryTTS : String → Option (List Nat))
        (fallbackTTS : String → Except AppError (List Nat))
        (now : Nat) (t resp : String) (e : AppError),
      m.audio_recording = some ar →
      tf (audioPath ar.filename) = .ok t →
      (∀ r, cf r = .ok resp) →
      (∀ s, primaryTTS s = none) →
      (∀ s, fallbackTTS s = .error e) →
      (auto_dub_meeting (some m) voice fmt tf cf true primaryTTS fallbackTTS now).result
        = .error (.runtimeError ("TTS generation failed: " ++ errStr e))) := by
  refine ⟨?_, ?_, ?_, ?_, ?_, ?_⟩
  · intro m ar tf cf now e har htf
    simp only [process_audio_recording, har, htf]
    refine ⟨?_, ?_⟩ <;> first | rfl | trivial
  · intro m ar tf cf now t e har htf hcf
    simp only [process_audio_recording, analyze_transcript, har, htf, hcf]
    refine ⟨?_, ?_⟩ <;> first | rfl | trivial
  · intro store fid cp ids now e hne
    have hne' : (campaignMeetings store fid ids).isEmpty = false := by
      simpa [List.isEmpty_iff] using hne
    simp only [generate_campaign_insights, hne']
    rfl
  · intro m ar voice fmt tf pT fT now e har htr
    simp only [auto_dub_meeting, har, htr, autoDubRest, Bool.not_true]
    rfl
  · intro m ar voice fmt tf cf configured pT fT now e har hno htf
    simp only [auto_dub_meeting, har, hno, Bool.not_false, if_true, htf]
  · intro m ar voice fmt tf cf pT fT now t resp e har htf hc hp hf
    by_cases htr : truthyStr ar.transcript = true
    · simp only [auto_dub_meeting, har, htr, autoDubRest, Bool.not_true, Bool.false_eq_true,
        if_false, hc, hp, hf]
    · have htr' : truthyStr ar.transcript = false := by simpa using htr
      simp only [auto_dub_meeting, har, htr', Bool.not_false, if_true, htf, autoDubRest,
        Bool.not_true, Bool.false_eq_true, if_false, hc, hp, hf]

/-- Witness for C5 (amended), first clause, at a concrete run. -/
theorem errors_surface_after_bookkeeping_witness :
    (process_audio_recording (some sampleMeeting) transcribeFileMissing completeUnused 0).result
      = .error (.exception ("Audio processing failed: "
          ++ errStr (.fileNotFoundError "Audio file not found: uploads/audio/rec.wav"))) ∧
    (process_audio_recording (some sampleMeeting) transcribeFileMissing completeUnused 0).saves.getLast?.bind Meeting.audio_recording
      = some { sampleRecording with processing_status := .failed } :=
  errors_surface_after_bookkeeping.1 sampleMeeting sampleRecording
    transcribeFileMissing completeUnused 0 _ rfl rfl

/-! ## C8 — empty campaign raises before any completion call -/

/-- C8: when the campaign query matches zero meetings,
`generate_campaign_insights` raises the not-found error, issues no
completion call and performs no writes. -/
theorem campaign_empty_raises_no_calls
    (store : List Meeting) (fid cp : String) (ids : Option (List String))
    (cf : CompletionRequest → Except AppError String) (now : Nat)
    (h : store.filter (queryMatch fid ids) = []) :
    (generate_campaign_insights store fid cp ids cf now).result
      = .error (.valueError "No meetings found for this fundraising campaign") ∧
    (generate_campaign_insights store fid cp ids cf now).calls = [] ∧
    (generate_campaign_insights store fid cp ids cf now).saves = [] := by
  have hm : campaignMeetings store fid ids = [] := by
    unfold campaignMeetings
    rw [h]
    rfl
  simp [generate_campaign_insights, hm]

/-- Witness for C8: a store whose one meeting belongs to another campaign. -/
theorem campaign_empty_raises_no_calls_witness :
    (generate_campaign_insights [sampleMeeting] "F2" "q" none completeNotJson 3).result
      = .error (.valueError "No meetings found for this fundraising campaign") ∧
    (generate_campaign_insights [sampleMeeting] "F2" "q" none completeNotJson 3).calls = [] ∧
    (generate_campaign_insights [sampleMeeting] "F2" "q" none completeNotJson 3).saves = [] :=
  campaign_empty_raises_no_calls [sampleMeeting] "F2" "q" none completeNotJson 3 (by rfl)

/-! ## C1 — which context sources a meeting contributes -/

def meetingBothSummaryNotes : Meeting :=
  { sampleMeeting with
    ai_summary := some "S", notes := some "N",
    audio_recording := some { sampleRecording with transcript := some "T" } }

/-- C1 counterexample: a meeting with `ai_summary`, `notes` and a
transcript all set contributes BOTH the summary-derived block and the
notes block to its campaign context (the claim says the notes content
never appears when the summary is present). -/
theorem summary_and_notes_both_contribute :
    "AI Summary: S" ∈ meetingContextParts meetingBothSummaryNotes ∧
    "Notes: N" ∈ meetingContextParts meetingBothSummaryNotes ∧
    truthyStr meetingBothSummaryNotes.ai_summary = true ∧
    truthyStr meetingBothSummaryNotes.notes = true := by
  decide

/-- Two labelled parts with labels differing within their first two
characters are distinct, whatever follows the labels. -/
theorem string_append_ne (p q a b : String)
    (h2 : p.data.take 2 ≠ q.data.take 2)
    (hp : 2 ≤ p.data.length) (hq : 2 ≤ q.data.length) :
    p ++ a ≠ q ++ b := by
  intro he
  apply h2
  have hd := congrArg String.data he
  rw [String.data_append, String.data_append] at hd
  have ht := congrArg (List.take 2) hd
  rwa [List.take_append_of_le_length hp, List.take_append_of_le_length hq] at ht

theorem mem_if_singleton {α : Type} (c : Prop) [Decidable c] (x e : α)
    (h : e ∈ (if c then [x] else [])) : e = x := by
  split at h
  · simpa using h
  · simp at h

/-- The transcript-excerpt part cannot enter the context block when its
guard is false: every other part carries a label distinct from
`"Transcript excerpt: "` in its first two characters. -/
theorem excerpt_not_mem_of_cond_false (m : Meeting)
    (hc : (hasTranscriptB m && !truthyStr m.ai_summary && !truthyStr m.notes) = false) :
    ("Transcript excerpt: " ++ truncate (m.audio_recording.bind AudioRecording.transcript) 1500)
      ∉ meetingContextParts m := by
  intro hm
  simp only [meetingContextParts, hc, Bool.false_eq_true, if_false, List.append_nil,
    List.mem_append] at hm
  rcases hm with ((hm | hm) | hm) | hm
  · simp only [List.mem_cons, List.not_mem_nil, or_false] at hm
    rcases hm with h | h | h | h
    · exact string_append_ne "Transcript excerpt: " "Title: " _ _
        (by decide) (by decide) (by decide) h
    · exact string_append_ne "Transcript excerpt: " "Date: " _ _
        (by decide) (by decide) (by decide) h
    · exact string_append_ne "Transcript excerpt: " "Type: " _ _
        (by decide) (by decide) (by decide) h
    · exact string_append_ne "Transcript excerpt: " "Status: " _ _
        (by decide) (by decide) (by decide) h
  · exact string_append_ne "Transcript excerpt: " "AI Summary: " _ _
      (by decide) (by decide) (by decide) (mem_if_singleton _ _ _ hm)
  · exact string_append_ne "Transcript excerpt: " "AI Key Points: " _ _
      (by decide) (by decide) (by decide) (mem_if_singleton _ _ _ hm)
  · exact string_append_ne "Transcript excerpt: " "Notes: " _ _
      (by decide) (by decide) (by decide) (mem_if_singleton _ _ _ hm)

/-- C1 (amended): the AI-summary, AI-key-points and notes parts are
appended independently, each whenever its field is truthy — so a
meeting with both `ai_summary` and `notes` contributes both — and only
the transcript excerpt is exclusive: it is in the context block
exactly when the meeting has a transcript and neither `ai_summary` nor
`notes` is truthy. -/
theorem context_parts_structure (m : Meeting) :
    (truthyStr m.ai_summary = true →
      ("AI Summary: " ++ truncate m.ai_summary 800) ∈ meetingContextParts m) ∧
    (truthyList m.ai_key_points = true →
      ("AI Key Points: " ++ truncate (some (String.intercalate "\n" (m.ai_key_points.getD []))) 800)
        ∈ meetingContextParts m) ∧
    (truthyStr m.notes = true →
      ("Notes: " ++ truncate m.notes 800) ∈ meetingContextParts m) ∧
    (("Transcript excerpt: " ++ truncate (m.audio_recording.bind AudioRecording.transcript) 1500)
        ∈ meetingContextParts m
      ↔ (hasTranscriptB m && !truthyStr m.ai_summary && !truthyStr m.notes) = true) ∧
    (truthyStr m.ai_summary = true → truthyStr m.notes = true →
      meetingContextParts m =
        ["Title: " ++ m.title, "Date: " ++ formatScheduled m.scheduled_date,
         "Type: " ++ m.meeting_type, "Status: " ++ m.status,
         "AI Summary: " ++ truncate m.ai_summary 800]
        ++ (if truthyList m.ai_key_points then
              ["AI Key Points: " ++ truncate (some (String.intercalate "\n" (m.ai_key_points.getD []))) 800]
            else [])
        ++ ["Notes: " ++ truncate m.notes 800]) := by
  refine ⟨?_, ?_, ?_, ⟨?_, ?_⟩, ?_⟩
  · intro h
    simp [meetingContextParts, h]
  · intro h
    simp [meetingContextParts, h]
  · intro h
    simp [meetingContextParts, h]
  · intro hm
    by_cases hcond : (hasTranscriptB m && !truthyStr m.ai_summary && !truthyStr m.notes) = true
    · exact hcond
    · exact absurd hm (excerpt_not_mem_of_cond_false m (by simpa using hcond))
  · intro hcond
    simp [meetingContextParts, hcond]
  · intro hs hn
    simp [meetingContextParts, hs, hn]

/-- Witness for C1 (amended) at the concrete meeting with `ai_summary`,
`notes` and a transcript all set: both blocks present, no excerpt. -/
theorem context_parts_structure_witness :
    ("AI Summary: " ++ truncate meetingBothSummaryNotes.ai_summary 800)
      ∈ meetingContextParts meetingBothSummaryNotes ∧
    ("Notes: " ++ truncate meetingBothSummaryNotes.notes 800)
      ∈ meetingContextParts meetingBothSummaryNotes ∧
    ("Transcript excerpt: "
        ++ truncate (meetingBothSummaryNotes.audio_recording.bind AudioRecording.transcript) 1500)
      ∉ meetingContextParts meetingBothSummaryNotes :=
  ⟨(context_parts_structure meetingBothSummaryNotes).1 rfl,
   (context_parts_structure meetingBothSummaryNotes).2.2.1 rfl,
   fun hm => absurd ((context_parts_structure meetingBothSummaryNotes).2.2.2.1.mp hm) (by decide)⟩

/-! ## C7 — context blocks appear in chronological order -/

def scheduledLt (a b : Meeting) : Prop := a.scheduled_date < b.scheduled_date

instance : IsAntisymm Meeting scheduledLt :=
  ⟨fun _ _ h1 h2 => absurd (Nat.lt_trans h1 h2) (Nat.lt_irrefl _)⟩

theorem campaignMeetings_sorted (store : List Meeting) (fid : String)
    (ids : Option (List String)) :
    List.Sorted scheduledLe (campaignMeetings store fid ids) :=
  List.sorted_insertionSort scheduledLe _

theorem campaignMeetings_perm (store : List Meeting) (fid : String)
    (ids : Option (List String)) :
    (campaignMeetings store fid ids).Perm (store.filter (queryMatch fid ids)) :=
  List.perm_insertionSort scheduledLe _

/-- With pairwise-distinct scheduled times, the sorted meeting list is
independent of the order in which the store returns the rows. -/
theorem campaignMeetings_eq_of_perm (l₁ l₂ : List Meeting) (fid : String)
    (ids : Option (List String))
    (hperm : l₁.Perm l₂)
    (hd : (l₁.filter (queryMatch fid ids)).Pairwise
      (fun a b => a.scheduled_date ≠ b.scheduled_date)) :
    campaignMeetings l₁ fid ids = campaignMeetings l₂ fid ids := by
  have hsymm : ∀ {x y : Meeting}, x.scheduled_date ≠ y.scheduled_date →
      y.scheduled_date ≠ x.scheduled_date := fun h => h.symm
  have hf : (l₁.filter (queryMatch fid ids)).Perm (l₂.filter (queryMatch fid ids)) :=
    hperm.filter _
  have hp1 := campaignMeetings_perm l₁ fid ids
  have hp2 := campaignMeetings_perm l₂ fid ids
  have hd2 : (l₂.filter (queryMatch fid ids)).Pairwise
      (fun a b => a.scheduled_date ≠ b.scheduled_date) :=
    (hf.pairwise_iff hsymm).1 hd
  have hne1 : (campaignMeetings l₁ fid ids).Pairwise
      (fun a b => a.scheduled_date ≠ b.scheduled_date) :=
    (hp1.pairwise_iff hsymm).2 hd
  have hne2 : (campaignMeetings l₂ fid ids).Pairwise
      (fun a b => a.scheduled_date ≠ b.scheduled_date) :=
    (hp2.pairwise_iff hsymm).2 hd2
  have hs1 : List.Sorted scheduledLt (campaignMeetings l₁ fid ids) :=
    ((campaignMeetings_sorted l₁ fid ids).and hne1).imp
      (fun h => Nat.lt_of_le_of_ne h.1 h.2)
  have hs2 : List.Sorted scheduledLt (campaignMeetings l₂ fid ids) :=
    ((campaignMeetings_sorted l₂ fid ids).and hne2).imp
      (fun h => Nat.lt_of_le_of_ne h.1 h.2)
  exact List.eq_of_perm_of_sorted (hp1.trans (hf.trans hp2.symm)) hs1 hs2

/-- C7: the per-meeting context blocks enter the prompt sorted
ascending by scheduled time — independent of the store's return order
when the times are pairwise distinct — and `meetings_used` lists
exactly the meetings the context was built from, in that order. -/
theorem campaign_blocks_chronological
    (l₁ l₂ : List Meeting) (fid cp : String) (ids : Option (List String))
    (cf : CompletionRequest → Except AppError String) (now : Nat)
    (hperm : l₁.Perm l₂)
    (hd : (l₁.filter (queryMatch fid ids)).Pairwise
      (fun a b => a.scheduled_date ≠ b.scheduled_date)) :
    generate_campaign_insights l₁ fid cp ids cf now
      = generate_campaign_insights l₂ fid cp ids cf now ∧
    List.Sorted scheduledLe (campaignMeetings l₁ fid ids) ∧
    (campaignMeetings l₁ fid ids).Perm (l₁.filter (queryMatch fid ids)) ∧
    (campaignMeetings l₁ fid ids ≠ [] →
      (generate_campaign_insights l₁ fid cp ids cf now).calls
        = [campaignRequest
            (String.intercalate "\n\n---\n\n" ((campaignMeetings l₁ fid ids).map meetingContext)) cp]) ∧
    (∀ r, (generate_campaign_insights l₁ fid cp ids cf now).result = .ok r →
      r.meetings_used = (campaignMeetings l₁ fid ids).map Meeting.id) := by
  refine ⟨?_, campaignMeetings_sorted l₁ fid ids, campaignMeetings_perm l₁ fid ids, ?_, ?_⟩
  · unfold generate_campaign_insights
    rw [campaignMeetings_eq_of_perm l₁ l₂ fid ids hperm hd]
  · intro hne
    have hne' : (campaignMeetings l₁ fid ids).isEmpty = false := by
      simpa [List.isEmpty_iff] using hne
    simp only [generate_campaign_insights, hne']
    cases cf (campaignRequest
        (String.intercalate "\n\n---\n\n" ((campaignMeetings l₁ fid ids).map meetingContext)) cp) <;>
      rfl
  · intro r hr
    by_cases hne : (campaignMeetings l₁ fid ids).isEmpty = true
    · simp only [generate_campaign_insights, hne] at hr
      simp at hr
    · simp only [generate_campaign_insights, Bool.not_eq_true] at hne
      simp only [generate_campaign_insights, hne] at hr
      cases hcf : cf (campaignRequest
          (String.intercalate "\n\n---\n\n" ((campaignMeetings l₁ fid ids).map meetingContext)) cp) with
      | error e => rw [hcf] at hr; simp at hr
      | ok resp =>
        rw [hcf] at hr
        simp only [Bool.false_eq_true, if_false, Except.ok.injEq] at hr
        rw [← hr]

def meetingLater : Meeting := { sampleMeeting with id := "M2", scheduled_date := 200 }

/-- Witness for C7: two meetings with distinct times, store orders swapped. -/
theorem campaign_blocks_chronological_witness :
    generate_campaign_insights [meetingLater, sampleMeeting] "F1" "q" none completeNotJson 3
      = generate_campaign_insights [sampleMeeting, meetingLater] "F1" "q" none completeNotJson 3 ∧
    List.Sorted scheduledLe (campaignMeetings [meetingLater, sampleMeeting] "F1" none) ∧
    (campaignMeetings [meetingLater, sampleMeeting] "F1" none).Perm
      ([meetingLater, sampleMeeting].filter (queryMatch "F1" none)) ∧
    (campaignMeetings [meetingLater, sampleMeeting] "F1" none ≠ [] →
      (generate_campaign_insights [meetingLater, sampleMeeting] "F1" "q" none completeNotJson 3).calls
        = [campaignRequest
            (String.intercalate "\n\n---\n\n"
              ((campaignMeetings [meetingLater, sampleMeeting] "F1" none).map meetingContext)) "q"]) ∧
    (∀ r, (generate_campaign_insights [meetingLater, sampleMeeting] "F1" "q" none completeNotJson 3).result
        = .ok r →
      r.meetings_used = (campaignMeetings [meetingLater, sampleMeeting] "F1" none).map Meeting.id) :=
  campaign_blocks_chronological [meetingLater, sampleMeeting] [sampleMeeting, meetingLater]
    "F1" "q" none completeNotJson 3
    (List.Perm.swap sampleMeeting meetingLater [])
    (by decide)

/-! ## C4 — no dub fields written when both synthesis paths fail -/

/-- C4: when speech synthesis fails on the primary path and on the
fallback path, `auto_dub_meeting` raises
`RuntimeError("TTS generation failed: ...")`, writes no dub file, and
no performed save changes any of the five dub fields. -/
theorem dub_fields_untouched_on_synthesis_failure
    (m : Meeting) (ar : AudioRecording) (voice fmt : String)
    (tf : String → Except AppError String)
    (cf : CompletionRequest → Except AppError String)
    (pT : String → Option (List Nat))
    (fT : String → Except AppError (List Nat))
    (now : Nat) (t resp : String) (e : AppError)
    (har : m.audio_recording = some ar)
    (htf : tf (audioPath ar.filename) = .ok t)
    (hc : ∀ r, cf r = .ok resp)
    (hp : ∀ s, pT s = none)
    (hf : ∀ s, fT s = .error e) :
    (auto_dub_meeting (some m) voice fmt tf cf true pT fT now).result
      = .error (.runtimeError ("TTS generation failed: " ++ errStr e)) ∧
    (auto_dub_meeting (some m) voice fmt tf cf true pT fT now).fileWrites = [] ∧
    ∀ s ∈ (auto_dub_meeting (some m) voice fmt tf cf true pT fT now).saves,
      s.dub_filename = m.dub_filename ∧ s.dub_text = m.dub_text ∧
      s.dub_voice = m.dub_voice ∧ s.dub_format = m.dub_format ∧
      s.dub_generated_at = m.dub_generated_at := by
  by_cases htr : truthyStr ar.transcript = true
  · simp only [auto_dub_meeting, har, htr, autoDubRest, Bool.not_true, Bool.false_eq_true,
      if_false, hc, hp, hf]
    refine ⟨?_, ?_, ?_⟩
    · first | rfl | trivial
    · first | rfl | trivial
    · intro s hs
      simp at hs
  · have htr' : truthyStr ar.transcript = false := by
      simpa using htr
    simp only [auto_dub_meeting, har, htr', Bool.not_false, if_true, htf, autoDubRest,
      Bool.not_true, Bool.false_eq_true, if_false, hc, hp, hf]
    refine ⟨?_, ?_, ?_⟩
    · first | rfl | trivial
    · first | rfl | trivial
    · intro s hs
      simp only [List.mem_singleton] at hs
      subst hs
      exact ⟨rfl, rfl, rfl, rfl, rfl⟩

def primaryNone : String → Option (List Nat) := fun _ => none

def fallbackFails : String → Except AppError (List Nat) :=
  fun _ => .error (.apiError "provider unavailable")

def completeOkText : CompletionRequest → Except AppError String :=
  fun _ => .ok "This is the meeting in English."

/-- Witness for C4 at a concrete run (transcript transcribed first,
then both synthesis paths fail). -/
theorem dub_fields_untouched_on_synthesis_failure_witness :
    (auto_dub_meeting (some sampleMeeting) "alloy" "mp3" transcribeOkHello completeOkText
        true primaryNone fallbackFails 9).result
      = .error (.runtimeError ("TTS generation failed: " ++ errStr (.apiError "provider unavailable"))) ∧
    (auto_dub_meeting (some sampleMeeting) "alloy" "mp3" transcribeOkHello completeOkText
        true primaryNone fallbackFails 9).fileWrites = [] ∧
    ∀ s ∈ (auto_dub_meeting (some sampleMeeting) "alloy" "mp3" transcribeOkHello completeOkText
        true primaryNone fallbackFails 9).saves,
      s.dub_filename = sampleMeeting.dub_filename ∧ s.dub_text = sampleMeeting.dub_text ∧
      s.dub_voice = sampleMeeting.dub_voice ∧ s.dub_format = sampleMeeting.dub_format ∧
      s.dub_generated_at = sampleMeeting.dub_generated_at :=
  dub_fields_untouched_on_synthesis_failure sampleMeeting sampleRecording "alloy" "mp3"
    transcribeOkHello completeOkText primaryNone fallbackFails 9
    "Hello world." "This is the meeting in English." (.apiError "provider unavailable")
    rfl rfl (fun _ => rfl) (fun _ => rfl) (fun _ => rfl)

/-! ## C6 — the translate-or-cleanup decision and the synthesized text -/

/-- C9: invoked on a meeting whose recording has no transcript,
`auto_dub_meeting` transcribes and saves first — the first save changes
only `audio_recording.transcript` (status and every other field
unchanged, which the record-update form expresses) — and that save
stays persisted even when synthesis later fails on both paths, so a
failed auto-dub can leave a transcript with `processing_status` still
as before (e.g. `NOT_STARTED`). -/
theorem transcript_saved_before_dub_steps
    (m : Meeting) (ar : AudioRecording) (voice fmt : String)
    (tf : String → Except AppError String)
    (cf : CompletionRequest → Except AppError String)
    (pT : String → Option (List Nat))
    (fT : String → Except AppError (List Nat))
    (configured : Bool) (now : Nat) (t : String)
    (har : m.audio_recording = some ar)
    (hno : truthyStr ar.transcript = false)
    (htf : tf (audioPath ar.filename) = .ok t) :
    (auto_dub_meeting (some m) voice fmt tf cf configured pT fT now).saves.head?
      = some { m with audio_recording := some { ar with transcript := some t } } ∧
    ({ ar with transcript := some t }).processing_status = ar.processing_status ∧
    (∀ resp e, (∀ r, cf r = .ok resp) → (∀ s, pT s = none) → (∀ s, fT s = .error e) →
      configured = true →
      (auto_dub_meeting (some m) voice fmt tf cf configured pT fT now).saves
        = [{ m with audio_recording := some { ar with transcript := some t } }] ∧
      (auto_dub_meeting (some m) voice fmt tf cf configured pT fT now).result
        = .error (.runtimeError ("TTS generation failed: " ++ errStr e))) := by
  refine ⟨?_, rfl, ?_⟩
  · simp only [auto_dub_meeting, har, hno, Bool.not_false, if_true, htf, autoDubRest]
    by_cases hcfg : configured = true
    · simp only [hcfg, Bool.not_true, Bool.false_eq_true, if_false]
      cases cf (if needsTranslation t then translateRequest t else cleanupRequest t) with
      | error e => rfl
      | ok content =>
        dsimp only
        cases pT (pyStrip content) with
        | some bytes => rfl
        | none =>
          dsimp only
          cases fT (pyStrip content) with
          | error e => rfl
          | ok bytes => rfl
    · have hcfg' : configured = false := by simpa using hcfg
      simp only [hcfg', Bool.not_false, if_true]
      rfl
  · intro resp e hc hp hf hcfg
    subst hcfg
    simp only [auto_dub_meeting, har, hno, Bool.not_false, if_true, htf, autoDubRest,
      Bool.not_true, Bool.false_eq_true, if_false, hc, hp, hf]
    exact ⟨by trivial, by trivial⟩

/-- Witness for C9: concrete failed auto-dub that still persists the
fresh transcript with `processing_status` left `NOT_STARTED`. -/
theorem transcript_saved_before_dub_steps_witness :
    (auto_dub_meeting (some sampleMeeting) "alloy" "mp3" transcribeOkHello completeOkText
        true primaryNone fallbackFails 9).saves.head?
      = some { sampleMeeting with
          audio_recording := some { sampleRecording with transcript := some "Hello world." } } ∧
    ({ sampleRecording with transcript := some "Hello world." }).processing_status
      = sampleRecording.processing_status ∧
    (∀ resp e, (∀ r, completeOkText r = .ok resp) →
      (∀ s, primaryNone s = none) → (∀ s, fallbackFails s = .error e) →
      (true : Bool) = true →
      (auto_dub_meeting (some sampleMeeting) "alloy" "mp3" transcribeOkHello completeOkText
          true primaryNone fallbackFails 9).saves
        = [{ sampleMeeting with
            audio_recording := some { sampleRecording with transcript := some "Hello world." } }] ∧
      (auto_dub_meeting (some sampleMeeting) "alloy" "mp3" transcribeOkHello completeOkText
          true primaryNone fallbackFails 9).result
        = .error (.runtimeError ("TTS generation failed: " ++ errStr e))) :=
  transcript_saved_before_dub_steps sampleMeeting sampleRecording "alloy" "mp3"
    transcribeOkHello completeOkText primaryNone fallbackFails true 9 "Hello world."
    rfl rfl rfl

/-! ## C10 — fence-wrapped JSON parses via the stripping step -/

theorem pyStripList_eq_self (l : List Char)
    (hh : ∀ c, l.head? = some c → pyWs c = false)
    (hl : ∀ c, l.getLast? = some c → pyWs c = false) :
    pyStripList l = l := by
  unfold pyStripList
  have h1 : l.dropWhile pyWs = l := by
    cases l with
    | nil => rfl
    | cons c r => rw [List.dropWhile_cons, if_neg (by simp [hh c rfl])]
  rw [h1]
  have h2 : l.reverse.dropWhile pyWs = l.reverse := by
    cases hr : l.reverse with
    | nil => rfl
    | cons c r =>
      rw [List.dropWhile_cons, if_neg]
      have hc : l.getLast? = some c := by
        rw [← List.head?_reverse, hr]
        rfl
      simp [hl c hc]
  rw [h2, List.reverse_reverse]

theorem fenceJsonAt_none_of_head (c : Char) (l : List Char) (hc : c ≠ '`') :
    fenceJsonAt (c :: l) = none := by
  unfold fenceJsonAt
  rw [if_neg]
  rw [List.take_succ_cons]
  intro h
  injection h with h1 _
  exact hc h1

theorem wsFenceAt_none_of : ∀ (m tl : List Char), m ≠ [] → '`' ∉ m →
    (∀ c, m.getLast? = some c → pyWs c = false) → wsFenceAt (m ++ tl) = none
  | [], _, h, _, _ => absurd rfl h
  | c :: m', tl, _, hnb, hlast => by
    have hcnb : c ≠ '`' := by
      intro h
      exact hnb (h ▸ List.mem_cons_self c m')
    by_cases hws : pyWs c = true
    · have hm' : m' ≠ [] := by
        rintro rfl
        have := hlast c rfl
        rw [hws] at this
        exact Bool.true_eq_false.mp this
      have hnb' : '`' ∉ m' := fun h => hnb (List.mem_cons_of_mem c h)
      have hlast' : ∀ d, m'.getLast? = some d → pyWs d = false := by
        intro d hd
        apply hlast
        cases m' with
        | nil => simp at hd
        | cons b l => rw [List.getLast?_cons_cons]; exact hd
      have ih := wsFenceAt_none_of m' tl hm' hnb' hlast'
      unfold wsFenceAt at ih ⊢
      simpa [List.dropWhile_cons, hws] using ih
    · have hws' : pyWs c = false := by simpa using hws
      unfold wsFenceAt
      simp only [List.cons_append, List.dropWhile_cons, hws', Bool.false_eq_true, if_false]
      rw [if_neg]
      rw [List.take_succ_cons]
      intro h
      injection h with h1 _
      exact hcnb h1

theorem subFencesF_clean : ∀ (fuel : Nat) (m : List Char), m.length + 2 ≤ fuel → '`' ∉ m →
    (∀ c, m.getLast? = some c → pyWs c = false) →
    subFencesF fuel (m ++ ['\n', '`', '`', '`']) = m
  | 0, m, hfuel, _, _ => by omega
  | fuel + 1, [], hfuel, _, _ => by
    have h1 : fuel ≠ 0 := by omega
    obtain ⟨f, rfl⟩ := Nat.exists_eq_succ_of_ne_zero h1
    simp [subFencesF, fenceJsonAt, wsFenceAt, pyWs]
  | fuel + 1, c :: m', hfuel, hnb, hlast => by
    have hcnb : c ≠ '`' := by
      intro h
      exact hnb (h ▸ List.mem_cons_self c m')
    have hnb' : '`' ∉ m' := fun h => hnb (List.mem_cons_of_mem c h)
    have hlast' : ∀ d, m'.getLast? = some d → pyWs d = false := by
      intro d hd
      apply hlast
      cases m' with
      | nil => simp at hd
      | cons b l => rw [List.getLast?_cons_cons]; exact hd
    have hfuel' : m'.length + 2 ≤ fuel := by
      simp only [List.length_cons] at hfuel
      omega
    have ih := subFencesF_clean fuel m' hfuel' hnb' hlast'
    have hfj : fenceJsonAt ((c :: m') ++ ['\n', '`', '`', '`']) = none :=
      fenceJsonAt_none_of_head c (m' ++ ['\n', '`', '`', '`']) hcnb
    have hwf : wsFenceAt ((c :: m') ++ ['\n', '`', '`', '`']) = none :=
      wsFenceAt_none_of (c :: m') ['\n', '`', '`', '`'] (by simp) hnb hlast
    rw [List.cons_append]
    rw [List.cons_append] at hfj hwf
    simp only [subFencesF, hfj, hwf]
    rw [ih]

theorem wrapped_data (s : String) :
    ("```json\n" ++ s ++ "\n```").data
      = '`' :: '`' :: '`' :: 'j' :: 's' :: 'o' :: 'n' :: '\n' :: (s.data ++ ['\n', '`', '`', '`']) := by
  rw [String.data_append, String.data_append]
  have e1 : ("```json\n" : String).data = ['`', '`', '`', 'j', 's', 'o', 'n', '\n'] := by decide
  have e2 : ("\n```" : String).data = ['\n', '`', '`', '`'] := by decide
  rw [e1, e2]
  simp

theorem stripFences_wrapped (s : String)
    (hne : s.data ≠ []) (hnb : '`' ∉ s.data)
    (hh : ∀ c, s.data.head? = some c → pyWs c = false)
    (hl : ∀ c, s.data.getLast? = some c → pyWs c = false) :
    stripFences ("```json\n" ++ s ++ "\n```") = s := by
  unfold stripFences
  have hlen : ("```json\n" ++ s ++ "\n```").length = s.data.length + 12 := by
    rw [String.length_append, String.length_append]
    have e1 : ("```json\n" : String).length = 8 := by decide
    have e2 : ("\n```" : String).length = 4 := by decide
    rw [e1, e2]
    have : s.length = s.data.length := rfl
    omega
  rw [hlen, wrapped_data]
  have hfj : fenceJsonAt
      ('`' :: '`' :: '`' :: 'j' :: 's' :: 'o' :: 'n' :: '\n' :: (s.data ++ ['\n', '`', '`', '`']))
      = some (List.dropWhile pyWs ('\n' :: (s.data ++ ['\n', '`', '`', '`']))) := by
    unfold fenceJsonAt
    have ht : List.take 7
        ('`' :: '`' :: '`' :: 'j' :: 's' :: 'o' :: 'n' :: '\n' :: (s.data ++ ['\n', '`', '`', '`']))
        = ['`', '`', '`', 'j', 's', 'o', 'n'] := rfl
    rw [if_pos ht]
    rfl
  have hdw : List.dropWhile pyWs ('\n' :: (s.data ++ ['\n', '`', '`', '`']))
      = s.data ++ ['\n', '`', '`', '`'] := by
    rw [List.dropWhile_cons, if_pos (by decide : pyWs '\n' = true)]
    cases hsd : s.data with
    | nil => exact absurd hsd hne
    | cons c r =>
      rw [List.cons_append, List.dropWhile_cons, if_neg]
      simp only [hh c (by rw [hsd]; rfl), Bool.false_eq_true, not_false_eq_true]
  have hstep : subFencesF (s.data.length + 12 + 1)
      ('`' :: '`' :: '`' :: 'j' :: 's' :: 'o' :: 'n' :: '\n' :: (s.data ++ ['\n', '`', '`', '`']))
      = subFencesF (s.data.length + 12) (s.data ++ ['\n', '`', '`', '`']) := by
    simp only [subFencesF, hfj, hdw]
  rw [hstep, subFencesF_clean (s.data.length + 12) s.data (by omega) hnb hl]

theorem jsonParse_head_backtick (s : String) (r : List Char) (h : s.data = '`' :: r) :
    jsonParse s = none := by
  unfold jsonParse
  rw [h]
  have hsk : skipWs ('`' :: r) = '`' :: r := by
    unfold skipWs
    rw [List.dropWhile_cons, if_neg]
    decide
  rw [hsk]
  simp [parseValue, parseNumber, dropLit]

/-- C10: `_analyze_transcript` strips markdown code fences before
parsing, so a completion output that is a valid JSON object wrapped in
```json fences — itself not valid raw JSON — yields the parsed
analysis, not the fallback.  (The payload is assumed backtick-free and
without surrounding whitespace inside the fences, the shape the fence
convention produces; a backtick inside a JSON string value would itself
be rewritten by the fence regex.) -/
theorem fenced_json_returns_parsed_analysis (s : String) (v : Json)
    (hne : s.data ≠ []) (hnb : '`' ∉ s.data)
    (hh : s.data.head?.map pyWs = some false)
    (hl : s.data.getLast?.map pyWs = some false)
    (hv : jsonParse s = some v) :
    parseAnalysisText ("```json\n" ++ s ++ "\n```") = v ∧
    jsonParse ("```json\n" ++ s ++ "\n```") = none := by
  have hh' : ∀ c, s.data.head? = some c → pyWs c = false := by
    intro c hc
    rw [hc] at hh
    simpa using hh
  have hl' : ∀ c, s.data.getLast? = some c → pyWs c = false := by
    intro c hc
    rw [hc] at hl
    simpa using hl
  constructor
  · unfold parseAnalysisText
    have h1 : pyStrip ("```json\n" ++ s ++ "\n```") = "```json\n" ++ s ++ "\n```" := by
      unfold pyStrip
      have hwh : ∀ c, ("```json\n" ++ s ++ "\n```").data.head? = some c → pyWs c = false := by
        intro c hc
        rw [wrapped_data] at hc
        simp only [List.head?_cons, Option.some.injEq] at hc
        subst hc
        decide
      have hconcat : ("```json\n" ++ s ++ "\n```").data
          = ('`' :: '`' :: '`' :: 'j' :: 's' :: 'o' :: 'n' :: '\n' :: (s.data ++ ['\n', '`', '`'])) ++ ['`'] := by
        rw [wrapped_data]
        simp
      have hwl : ∀ c, ("```json\n" ++ s ++ "\n```").data.getLast? = some c → pyWs c = false := by
        intro c hc
        rw [hconcat, List.getLast?_concat] at hc
        simp only [Option.some.injEq] at hc
        subst hc
        decide
      rw [pyStripList_eq_self _ hwh hwl]
    rw [h1, stripFences_wrapped s hne hnb hh' hl', hv]
  · exact jsonParse_head_backtick _ _ (wrapped_data s)

/-- Witness for C10: a concrete fenced JSON object. -/
theorem fenced_json_returns_parsed_analysis_witness :
    parseAnalysisText ("```json\n" ++ "\x7b\"summary\": \"ok\", \"sentiment\": \"neutral\"\x7d" ++ "\n```")
      = .obj [("summary", .str "ok"), ("sentiment", .str "neutral")] ∧
    jsonParse ("```json\n" ++ "\x7b\"summary\": \"ok\", \"sentiment\": \"neutral\"\x7d" ++ "\n```") = none :=
  fenced_json_returns_parsed_analysis
    "\x7b\"summary\": \"ok\", \"sentiment\": \"neutral\"\x7d"
    (.obj [("summary", .str "ok"), ("sentiment", .str "neutral")])
    (by decide) (by decide) (by rfl) (by rfl) (by rfl)
